import Mathlib

/-!
Verification development for `kea_digest_bot/digest.py`, a sequential news
digest pipeline (collect → summarize → render → send).  Pure string and list
manipulations are embedded directly; effectful steps (HTTP fetches, the
generative-text call) are passed in as explicit oracles, and Python
exceptions are modelled with `Option`/`Except`.
-/

namespace KeaDigest

/-- Model of Python `str.lower` on one character, covering the ASCII and
Cyrillic letters occurring in this program's keyword table and inputs
(`А`..`Я` and `Ё`); all other characters are returned unchanged. -/
def pyLowerChar (c : Char) : Char :=
  if 'A' ≤ c ∧ c ≤ 'Z' then Char.ofNat (c.toNat + 32)
  else if 'А' ≤ c ∧ c ≤ 'Я' then Char.ofNat (c.toNat + 32)
  else if c = 'Ё' then 'ё'
  else c

/-- Characterwise lowering of a character list. -/
def lowerCL (l : List Char) : List Char := l.map pyLowerChar

/-- Model of Python `str.lower`. -/
def pyLower (s : String) : String := ⟨lowerCL s.data⟩

/-- Decidable list-prefix test (executable). -/
def isPrefixOfCL : List Char → List Char → Bool
  | [], _ => true
  | _ :: _, [] => false
  | a :: as, b :: bs => a == b && isPrefixOfCL as bs

/-- Model of Python substring containment `needle in hay`. -/
def inCL (needle : List Char) : List Char → Bool
  | [] => isPrefixOfCL needle []
  | hay@(_ :: t) => isPrefixOfCL needle hay || inCL needle t

/-- The fixed keyword table ENERGY_KW of digest.py (lines 62-74). -/
def ENERGY_KW : List String := [
  "энергетик", "электроэнерги", "электростанци", "электросет",
  "тариф", "арем", "мэмр", "минэнерго", "генераци", "мощност",
  "квт", "мвт", "гвт", "тэс", "грэс", "гэс", "тэц",
  "вэс", "сэс", "виэ", "возобновляем", "уголь", "угольн",
  "накопитель", "bess", "водород", "атомн", "аэс",
  "энергосистем", "энергобаланс", "дефицит электр",
  "импорт электр", "экспорт электр", "подстанци",
  "kegoc", "кегок", "самрук", "samruk",
  "зелён", "зелен", "энергетический переход",
  "qazaqgreen", "казатомпром", "kazenergy",
  "ток", "напряжени", "сеть передач"]

/-- is_energy_relevant (digest.py lines 122-124):
`t = text.lower(); return any(kw in t for kw in ENERGY_KW)`. -/
def is_energy_relevant (text : String) : Bool :=
  let t := lowerCL text.data
  ENERGY_KW.any (fun kw => inCL kw.data t)

theorem isPrefixOfCL_iff (p : List Char) : ∀ l, isPrefixOfCL p l = true ↔ ∃ t, l = p ++ t := by
  induction p with
  | nil =>
    intro l
    simp [isPrefixOfCL]
  | cons a as ih =>
    intro l
    cases l with
    | nil =>
      simp [isPrefixOfCL]
    | cons b bs =>
      simp only [isPrefixOfCL, Bool.and_eq_true, beq_iff_eq, List.cons_append,
        List.cons.injEq, ih bs]
      constructor
      · rintro ⟨rfl, t, rfl⟩
        exact ⟨t, rfl, rfl⟩
      · rintro ⟨t, rfl, rfl⟩
        exact ⟨rfl, t, rfl⟩

theorem inCL_iff (needle : List Char) :
    ∀ hay, inCL needle hay = true ↔ ∃ pre suf, hay = pre ++ needle ++ suf := by
  intro hay
  induction hay with
  | nil =>
    simp only [inCL, isPrefixOfCL_iff]
    constructor
    · rintro ⟨t, ht⟩
      rcases List.append_eq_nil.1 ht.symm with ⟨h1, h2⟩
      exact ⟨[], [], by simp [h1]⟩
    · rintro ⟨pre, suf, h⟩
      rcases List.append_eq_nil.1 h.symm with ⟨h1, h2⟩
      rcases List.append_eq_nil.1 h1 with ⟨h3, h4⟩
      exact ⟨[], by simp [h4]⟩
  | cons c t ih =>
    simp only [inCL, Bool.or_eq_true, ih, isPrefixOfCL_iff]
    constructor
    · rintro (⟨tl, htl⟩ | ⟨pre, suf, rfl⟩)
      · exact ⟨[], tl, by simpa using htl⟩
      · exact ⟨c :: pre, suf, rfl⟩
    · rintro ⟨pre, suf, h⟩
      cases pre with
      | nil =>
        left
        exact ⟨suf, by simpa using h⟩
      | cons p ps =>
        right
        simp only [List.cons_append, List.cons.injEq] at h
        exact ⟨ps, suf, h.2⟩

/-- Relevance characterized as substring matching of some keyword. -/
theorem relevant_iff (s : String) :
    is_energy_relevant s = true ↔
      ∃ kw ∈ ENERGY_KW, ∃ pre suf, lowerCL s.data = pre ++ kw.data ++ suf := by
  simp only [is_energy_relevant, List.any_eq_true, inCL_iff]

/-- Any string containing some casing of "минэнерго" is relevant. -/
theorem relevant_of_minenergo (s : String) (pre w suf : List Char)
    (hs : s.data = pre ++ w ++ suf) (hw : lowerCL w = "минэнерго".data) :
    is_energy_relevant s = true := by
  refine (relevant_iff s).2 ⟨"минэнерго", by decide, lowerCL pre, lowerCL suf, ?_⟩
  rw [← hw]
  simp [lowerCL, hs, List.map_append]

/-- C1: for every input string, the relevance predicate holds iff the
lowercased string contains some keyword of ENERGY_KW as a substring; a string
containing "Минэнерго" (in any letter case) is relevant, and
"Купили квартиру", containing no keyword, is not. -/
theorem C1_relevance :
    (∀ s : String, is_energy_relevant s = true ↔
      ∃ kw ∈ ENERGY_KW, ∃ pre suf, lowerCL s.data = pre ++ kw.data ++ suf)
    ∧ (∀ (s : String) (pre w suf : List Char), s.data = pre ++ w ++ suf →
      lowerCL w = "минэнерго".data → is_energy_relevant s = true)
    ∧ is_energy_relevant "Минэнерго сообщило о вводе новой подстанции" = true
    ∧ is_energy_relevant "Купили квартиру" = false :=
  ⟨relevant_iff, relevant_of_minenergo, by decide, by decide⟩

/-- C1 witness: the general parts of C1 applied at concrete inputs. -/
theorem C1_relevance_witness :
    is_energy_relevant "Минэнерго сообщило" = true :=
  C1_relevance.2.1 "Минэнерго сообщило" [] "Минэнерго".data " сообщило".data
    (by decide) (by decide)

/-! ## Articles and deduplication (collect_all_news) -/

/-- The article record produced by the collectors (digest.py lines 155-161,
190-196): a dict with keys source, title, summary, link, date. -/
structure Article where
  source : String
  title : String
  summary : String
  link : String
  date : String
deriving DecidableEq

/-- The deduplication key of collect_all_news line 213:
`a['title'][:60].lower()`. -/
def dedupKey (a : Article) : String := ⟨lowerCL (a.title.data.take 60)⟩

/-- Membership in the `seen` set of keys (Python `key not in seen`). -/
def memS (seen : List String) (k : String) : Bool := seen.any (fun s => s == k)

/-- The deduplication loop of collect_all_news lines 211-216; the Python set
`seen` is modelled as the list of keys added so far. -/
def dedupLoop : List Article → List String → List Article
  | [], _ => []
  | a :: rest, seen =>
    let key := dedupKey a
    if memS seen key then dedupLoop rest seen
    else a :: dedupLoop rest (key :: seen)

/-- Deduplication of the combined article list (collect_all_news). -/
def dedup (l : List Article) : List Article := dedupLoop l []

/-- Spec-side formulation of the dedup contract: scanning left to right with
the list of earlier articles as context, an article is kept exactly when no
earlier article has the same key. -/
def noEarlier (pre : List Article) (a : Article) : Bool :=
  ! pre.any (fun b => dedupKey b == dedupKey a)

/-- Spec-side deduplication: keep `a` iff no earlier article (accumulated in
`pre`) shares its key. -/
def dedupSpecFrom : List Article → List Article → List Article
  | _, [] => []
  | pre, a :: rest =>
    if noEarlier pre a then a :: dedupSpecFrom (pre ++ [a]) rest
    else dedupSpecFrom (pre ++ [a]) rest

theorem memS_cons (k0 k : String) (seen : List String) :
    memS (k0 :: seen) k = ((k0 == k) || memS seen k) := by
  simp [memS, List.any_cons]

theorem dedupLoop_eq_specFrom :
    ∀ (l pre : List Article) (seen : List String),
      (∀ k, memS seen k = pre.any (fun b => dedupKey b == k)) →
      dedupLoop l seen = dedupSpecFrom pre l := by
  intro l
  induction l with
  | nil => intro pre seen h; rfl
  | cons a rest ih =>
    intro pre seen h
    simp only [dedupLoop, dedupSpecFrom, noEarlier]
    rw [h (dedupKey a)]
    by_cases hc : (pre.any fun b => dedupKey b == dedupKey a) = true
    · simp only [hc, Bool.not_true, if_true, Bool.false_eq_true, if_false]
      exact ih (pre ++ [a]) seen (fun k => by
        rw [h k, List.any_append, List.any_cons, List.any_nil, Bool.or_false]
        by_cases hk : (dedupKey a == k) = true
        · have hak : dedupKey a = k := by simpa using hk
          rw [← hak, hc]
          simp
        · simp only [Bool.not_eq_true] at hk
          simp [hk])
    · simp only [Bool.not_eq_true] at hc
      simp only [hc, Bool.not_false, if_true, Bool.false_eq_true, if_false]
      congr 1
      exact ih (pre ++ [a]) (dedupKey a :: seen) (fun k => by
        rw [memS_cons, h k, List.any_append, List.any_cons, List.any_nil,
          Bool.or_false, Bool.or_comm])

theorem dedupLoop_sublist :
    ∀ (l : List Article) (seen : List String), List.Sublist (dedupLoop l seen) l := by
  intro l
  induction l with
  | nil => intro seen; simp [dedupLoop]
  | cons a rest ih =>
    intro seen
    simp only [dedupLoop]
    cases hm : memS seen (dedupKey a) with
    | true =>
      simp only [hm, if_true]
      exact List.Sublist.cons a (ih seen)
    | false =>
      simp only [hm, Bool.false_eq_true, if_false]
      exact List.Sublist.cons₂ a (ih _)

/-- C2: deduplication keeps an article exactly when no earlier article in the
list has the same lowercase first-60-characters-of-title key (the spec-side
recursion dedupSpecFrom), and the survivors appear in their original relative
order (the result is a sublist of the input). -/
theorem C2_dedup (l : List Article) :
    dedup l = dedupSpecFrom [] l ∧ List.Sublist (dedup l) l :=
  ⟨dedupLoop_eq_specFrom l [] [] (fun k => by simp [memS]),
   dedupLoop_sublist l []⟩

/-- Articles used in the C3 scenario from §8 of the spec. -/
def tec50 : Article :=
  { source := "Kapital.kz", title := "ТЭЦ запустила новый блок мощностью 50 МВт",
    summary := "", link := "", date := "06.10.2025" }

/-- Second article of the C3 scenario, differing only in the megawatt figure. -/
def tec80 : Article :=
  { source := "Kursiv.media", title := "ТЭЦ запустила новый блок мощностью 80 МВт",
    summary := "", link := "", date := "07.10.2025" }

/-- C3 counterexample: the claim says the two articles collapse to one entry
with the first retained; in fact both titles are 41 characters long, so the
60-character prefixes differ at the megawatt figure and nothing collapses. -/
theorem C3_counterexample : dedup [tec50, tec80] ≠ [tec50] := by decide

/-- C3 amended: the two titles differ inside the first 60 characters, so
their lowercase dedup keys differ and both articles survive deduplication in
order. -/
theorem C3_amended :
    dedupKey tec50 ≠ dedupKey tec80 ∧ dedup [tec50, tec80] = [tec50, tec80] := by
  decide

/-! ## Feed collection (parse_date, collect_rss) -/

/-- A feedparser entry, shallowly embedded.  The `*_parsed` attributes are
modelled as optional UTC timestamps in whole seconds (a present
`time.struct_time` is truthy, a missing attribute is `getattr`'s None
default); the textual fields are optional strings as returned by
`entry.get`. -/
structure Entry where
  published_parsed : Option Int := none
  updated_parsed : Option Int := none
  created_parsed : Option Int := none
  title : Option String := none
  summary : Option String := none
  description : Option String := none
  link : Option String := none
deriving DecidableEq

/-- parse_date (digest.py lines 127-134): try published_parsed,
updated_parsed, created_parsed in that order, defaulting to the current
time. -/
def parse_date (now : Int) (e : Entry) : Int :=
  match e.published_parsed with
  | some v => v
  | none =>
    match e.updated_parsed with
    | some v => v
    | none =>
      match e.created_parsed with
      | some v => v
      | none => now

/-- Python's default whitespace set for `str.strip` (ASCII part). -/
def isSpacePy (c : Char) : Bool :=
  c == ' ' || c == '\t' || c == '\n' || c == '\r' || c == '\x0b' || c == '\x0c'

/-- Whitespace stripping on character lists. -/
def stripCL (l : List Char) : List Char :=
  ((l.dropWhile isSpacePy).reverse.dropWhile isSpacePy).reverse

/-- Model of Python `str.strip()`. -/
def pyStrip (s : String) : String := ⟨stripCL s.data⟩

/-- Tag/text fragment scanner underlying the `get_text` model: collects the
text runs between '<'…'>' tag spans.  The first argument is the in-tag flag,
the second the current fragment accumulated in reverse. -/
def getFragsGo : Bool → List Char → List Char → List (List Char)
  | false, cur, [] => [cur.reverse]
  | false, cur, c :: t =>
    if c = '<' then cur.reverse :: getFragsGo true [] t
    else getFragsGo false (c :: cur) t
  | true, _, [] => []
  | true, cur, c :: t =>
    if c = '>' then getFragsGo false [] t
    else getFragsGo true cur t

/-- Model of `BeautifulSoup(html, 'html.parser').get_text(' ', strip=True)`:
drop markup tags, strip each text fragment, skip fragments that become
empty, and join the rest with single spaces. -/
def getTextCL (l : List Char) : List Char :=
  List.intercalate [' ']
    (((getFragsGo false [] l).map stripCL).filter (fun f => !f.isEmpty))

/-- String version of the `get_text` model. -/
def getTextS (s : String) : String := ⟨getTextCL s.data⟩

/-- Civil date (proleptic Gregorian) from days since the Unix epoch, the
standard era-based conversion used to model datetime's date computation. -/
def civilFromDays (z0 : Int) : Int × Int × Int :=
  let z := z0 + 719468
  let era := Int.fdiv z 146097
  let doe := z - era * 146097
  let yoe := Int.fdiv (doe - Int.fdiv doe 1460 + Int.fdiv doe 36524 - Int.fdiv doe 146096) 365
  let y := yoe + era * 400
  let doy := doe - (365 * yoe + Int.fdiv yoe 4 - Int.fdiv yoe 100)
  let mp := Int.fdiv (5 * doy + 2) 153
  let d := doy - Int.fdiv (153 * mp + 2) 5 + 1
  let m := mp + (if mp < 10 then 3 else -9)
  (y + (if m ≤ 2 then 1 else 0), m, d)

/-- Two-digit zero padding for day and month numbers. -/
def pad2 (n : Int) : String := if n < 10 then "0" ++ toString n else toString n

/-- Model of `ts.strftime('%d.%m.%Y')` for a UTC timestamp in seconds. -/
def formatDMY (ts : Int) : String :=
  match civilFromDays (Int.fdiv ts 86400) with
  | (y, m, d) => pad2 d ++ "." ++ pad2 m ++ "." ++ toString y

/-- The summary source text of a feed entry:
`entry.get('summary', entry.get('description', ''))`. -/
def entrySummaryRaw (e : Entry) : String :=
  match e.summary with
  | some s => s
  | none => e.description.getD ""

/-- The processed summary of collect_rss lines 148-150: HTML stripped via the
`get_text` model, truncated to 500 characters. -/
def entrySummary (e : Entry) : String := ⟨(getTextCL (entrySummaryRaw e).data).take 500⟩

/-- The per-entry body of collect_rss lines 143-162: resolve the publication
date, discard entries older than `since`, extract title/summary/link, keep
the entry iff `is_energy_relevant(f'{title} {summary}')`. -/
def processEntry (now since : Int) (srcName : String) (e : Entry) : Option Article :=
  let pub := parse_date now e
  if pub < since then none
  else
    let title := pyStrip (e.title.getD "")
    let summ := entrySummary e
    if is_energy_relevant (title ++ " " ++ summ) then
      some { source := srcName, title := title, summary := summ,
             link := e.link.getD "", date := formatDMY pub }
    else none

/-- Articles contributed by one feed's entry list. -/
def collect_feed (now since : Int) (srcName : String) (entries : List Entry) : List Article :=
  entries.filterMap (processEntry now since srcName)

/-- An RSS source record of the RSS_SOURCES table. -/
structure RssSource where
  name : String
  url : String
deriving DecidableEq

/-- The fixed RSS_SOURCES table (digest.py lines 77-87). -/
def RSS_SOURCES : List RssSource := [
  ⟨"QazaqGreen", "https://qazaqgreen.com/feed/"⟩,
  ⟨"Kapital.kz", "https://kapital.kz/rss/"⟩,
  ⟨"Kursiv.media", "https://kursiv.media/feed/"⟩,
  ⟨"Inbusiness.kz", "https://inbusiness.kz/ru/rss/"⟩,
  ⟨"Bizmedia.kz", "https://bizmedia.kz/feed/"⟩,
  ⟨"BAQ.KZ", "https://baq.kz/rss/"⟩,
  ⟨"Forbes.kz", "https://forbes.kz/rss/"⟩,
  ⟨"Energyprom.kz", "https://energyprom.kz/rss/"⟩,
  ⟨"Azattyq Ruhy", "https://azattyq-ruhy.kz/feed/"⟩]

/-- One source's contribution inside collect_rss: the fetch+parse of the feed
is an oracle keyed by URL; `.error` models an exception raised while
fetching or parsing, which the per-source try/except catches (the source
then contributes no articles). -/
def rssContribution (now since : Int) (fetch : String → Except Unit (List Entry))
    (src : RssSource) : List Article :=
  match fetch src.url with
  | .error _ => []
  | .ok entries => collect_feed now since src.name entries

/-- collect_rss (digest.py lines 137-166): per-source contributions appended
in source-list order. -/
def collect_rss (now since : Int) (fetch : String → Except Unit (List Entry)) : List Article :=
  (RSS_SOURCES.map (rssContribution now since fetch)).flatten

/-! ## Scrape collection (collect_scraped) -/

/-- A scrape source record of the SCRAPE_SOURCES table. -/
structure ScrapeSource where
  name : String
  url : String
  base : String
  item_sel : String
  title_sel : String
  link_sel : String
deriving DecidableEq

/-- The fixed SCRAPE_SOURCES table (digest.py lines 90-107). -/
def SCRAPE_SOURCES : List ScrapeSource := [
  ⟨"МЭМР РК", "https://energo.gov.kz/ru/novosti", "https://energo.gov.kz",
   ".news-item, .news__item, article", "h2, h3, .title, .news__title", "a"⟩,
  ⟨"Правительство РК", "https://primeminister.kz/ru/news", "https://primeminister.kz",
   ".news-item, .list__item, .article-item", "h2, h3, .title, .name", "a"⟩]

/-- One selected listing item: `select_one(title_sel)` may miss (None), and
the link element may be missing or lack an href attribute. -/
structure ScrapeItem where
  title_el : Option String := none
  link_el : Option (Option String) := none
deriving DecidableEq

/-- The per-item body of collect_scraped lines 178-197: skip items without a
title element, resolve the link against the base URL when relative (an empty
href is falsy and leaves the link empty), keep the item iff the title alone
is energy relevant. -/
def processScrapeItem (src : ScrapeSource) (today : String) (it : ScrapeItem) : Option Article :=
  match it.title_el with
  | none => none
  | some raw =>
    let title := getTextS raw
    let link :=
      match it.link_el with
      | some (some href) =>
        if href = "" then ""
        else if isPrefixOfCL "http".data href.data then href
        else src.base ++ href
      | _ => ""
    if is_energy_relevant title then
      some { source := src.name, title := title, summary := "", link := link, date := today }
    else none

/-- One source's contribution inside collect_scraped; the HTTP fetch plus
item selection is an oracle keyed by URL, `.error` modelling a caught
per-source exception.  The code keeps only the first 20 selected items. -/
def scrapeContribution (now : Int) (sfetch : String → Except Unit (List ScrapeItem))
    (src : ScrapeSource) : List Article :=
  match sfetch src.url with
  | .error _ => []
  | .ok items => (items.take 20).filterMap (processScrapeItem src (formatDMY now))

/-- collect_scraped (digest.py lines 169-201). -/
def collect_scraped (now : Int) (sfetch : String → Except Unit (List ScrapeItem)) : List Article :=
  (SCRAPE_SOURCES.map (scrapeContribution now sfetch)).flatten

/-- collect_all_news (digest.py lines 204-219): cutoff now − 7 days, RSS then
scraped articles, deduplicated. -/
def collect_all_news (now : Int) (fetch : String → Except Unit (List Entry))
    (sfetch : String → Except Unit (List ScrapeItem)) : List Article :=
  let since := now - 7 * 86400
  let rss := collect_rss now since fetch
  let scrp := collect_scraped now sfetch
  dedup (rss ++ scrp)

/-- C4: the publication timestamp is resolved from published_parsed,
updated_parsed, created_parsed in that priority order with `now` as the
default; an entry resolving to 8 days before the run is dropped by the
7-day cutoff, while one resolving to 6 days before the run is kept when it
passes the relevance predicate. -/
theorem C4_recency :
    (∀ (now : Int) (e : Entry) (t : Int),
      e.published_parsed = some t → parse_date now e = t)
    ∧ (∀ (now : Int) (e : Entry) (t : Int),
      e.published_parsed = none → e.updated_parsed = some t → parse_date now e = t)
    ∧ (∀ (now : Int) (e : Entry) (t : Int),
      e.published_parsed = none → e.updated_parsed = none →
      e.created_parsed = some t → parse_date now e = t)
    ∧ (∀ (now : Int) (e : Entry),
      e.published_parsed = none → e.updated_parsed = none →
      e.created_parsed = none → parse_date now e = now)
    ∧ (∀ (now : Int) (srcName : String) (e : Entry),
      parse_date now e = now - 8 * 86400 →
      collect_feed now (now - 7 * 86400) srcName [e] = [])
    ∧ (∀ (now : Int) (srcName : String) (e : Entry),
      parse_date now e = now - 6 * 86400 →
      is_energy_relevant (pyStrip (e.title.getD "") ++ " " ++ entrySummary e) = true →
      (collect_feed now (now - 7 * 86400) srcName [e]).length = 1) := by
  refine ⟨?_, ?_, ?_, ?_, ?_, ?_⟩
  · intro now e t h
    simp [parse_date, h]
  · intro now e t h1 h2
    simp [parse_date, h1, h2]
  · intro now e t h1 h2 h3
    simp [parse_date, h1, h2, h3]
  · intro now e h1 h2 h3
    simp [parse_date, h1, h2, h3]
  · intro now srcName e hpub
    simp [collect_feed, List.filterMap, processEntry]
    rw [if_pos (show parse_date now e < now - 604800 by omega)]
  · intro now srcName e hpub hrel
    simp [collect_feed, List.filterMap, processEntry, hrel]
    rw [if_neg (show ¬ parse_date now e < now - 604800 by omega)]
    rfl

/-- Entry used in the C4 witness: eight days old. -/
def entry8d : Entry := { published_parsed := some (-691200), title := some "Минэнерго" }

/-- Entry used in the C4 witness: six days old and relevant. -/
def entry6d : Entry := { published_parsed := some (-518400), title := some "Минэнерго" }

/-- C4 witness: the recency conclusions instantiated at a run time of 0 with
concrete entries dated 8 and 6 days earlier. -/
theorem C4_recency_witness :
    collect_feed 0 (0 - 7 * 86400) "BAQ.KZ" [entry8d] = []
    ∧ (collect_feed 0 (0 - 7 * 86400) "BAQ.KZ" [entry6d]).length = 1 :=
  ⟨C4_recency.2.2.2.2.1 0 "BAQ.KZ" entry8d (by decide),
   C4_recency.2.2.2.2.2 0 "BAQ.KZ" entry6d (by decide) (by decide)⟩

theorem map_congr_mem {α β : Type} (f g : α → β) :
    ∀ l : List α, (∀ a ∈ l, f a = g a) → l.map f = l.map g := by
  intro l
  induction l with
  | nil => intro h; rfl
  | cons a t ih =>
    intro h
    simp only [List.map_cons, h a (by simp)]
    rw [ih (fun b hb => h b (by simp [hb]))]

/-- C8: a per-source fetch/parse failure is caught at that source: the source
contributes zero articles and every other source's contribution is exactly
what it would have been without the failure, for both collectors. -/
theorem C8_isolation :
    (∀ (now since : Int) (fetch fetch2 : String → Except Unit (List Entry))
      (u : String) (err : Unit),
      fetch2 u = .error err → (∀ v, v ≠ u → fetch2 v = fetch v) →
      collect_rss now since fetch2 =
        (RSS_SOURCES.map (fun src =>
          if src.url = u then [] else rssContribution now since fetch src)).flatten)
    ∧ (∀ (now : Int) (sfetch sfetch2 : String → Except Unit (List ScrapeItem))
      (u : String) (err : Unit),
      sfetch2 u = .error err → (∀ v, v ≠ u → sfetch2 v = sfetch v) →
      collect_scraped now sfetch2 =
        (SCRAPE_SOURCES.map (fun src =>
          if src.url = u then [] else scrapeContribution now sfetch src)).flatten) := by
  constructor
  · intro now since fetch fetch2 u err h1 h2
    unfold collect_rss
    congr 1
    apply map_congr_mem
    intro src _
    by_cases hu : src.url = u
    · rw [hu, if_pos rfl]
      simp [rssContribution, hu, h1]
    · rw [if_neg hu]
      simp [rssContribution, h2 src.url hu]
  · intro now sfetch sfetch2 u err h1 h2
    unfold collect_scraped
    congr 1
    apply map_congr_mem
    intro src _
    by_cases hu : src.url = u
    · rw [hu, if_pos rfl]
      simp [scrapeContribution, hu, h1]
    · rw [if_neg hu]
      simp [scrapeContribution, h2 src.url hu]

/-- Fetch oracle where every feed parses to an empty entry list. -/
def okFetch : String → Except Unit (List Entry) := fun _ => Except.ok []

/-- Fetch oracle failing exactly on the Kapital.kz feed. -/
def badFetch : String → Except Unit (List Entry) :=
  fun v => if v = "https://kapital.kz/rss/" then Except.error () else Except.ok []

/-- Scrape oracle where every page yields no items. -/
def okSFetch : String → Except Unit (List ScrapeItem) := fun _ => Except.ok []

/-- Scrape oracle failing exactly on the ministry news page. -/
def badSFetch : String → Except Unit (List ScrapeItem) :=
  fun v => if v = "https://energo.gov.kz/ru/novosti" then Except.error () else Except.ok []

/-- C8 witness: failure isolation instantiated with concrete oracles failing
on one RSS feed and one scrape page. -/
theorem C8_isolation_witness :
    collect_rss 0 0 badFetch =
      (RSS_SOURCES.map (fun src =>
        if src.url = "https://kapital.kz/rss/" then []
        else rssContribution 0 0 okFetch src)).flatten
    ∧ collect_scraped 0 badSFetch =
      (SCRAPE_SOURCES.map (fun src =>
        if src.url = "https://energo.gov.kz/ru/novosti" then []
        else scrapeContribution 0 okSFetch src)).flatten :=
  ⟨C8_isolation.1 0 0 okFetch badFetch "https://kapital.kz/rss/" ()
      (by simp [badFetch]) (fun v hv => by simp [badFetch, okFetch, hv]),
   C8_isolation.2 0 okSFetch badSFetch "https://energo.gov.kz/ru/novosti" ()
      (by simp [badSFetch]) (fun v hv => by simp [badSFetch, okSFetch, hv])⟩

/-! ## Digest generation (generate_digest) -/

/-- The DIGEST_PROMPT template of digest.py lines 226-297 (braces written
with hex escapes; the string content is identical to the source). -/
def DIGEST_PROMPT : String := "
Ты — аналитик ОЮЛ «Казахстанская Электроэнергетическая Ассоциация» (КЭА, Казахстан).

Ниже — список новостей по энергетике РК за последние 7 дней.
Составь еженедельный дайджест СТРОГО в формате JSON, описанном ниже.

ПРАВИЛА:
1. Каждая новость — 2-3 предложения максимум: факт + почему важно для КЭА.
2. Слухи, неподтверждённые данные — исключить.
3. Если новость нерелевантна для энергетики РК — не включать.
4. Разделы: включай только те, по которым есть материал.
5. Блок \"requires_action\": 2-3 конкретных действия для ассоциации (не общие фразы).
6. Язык — русский, деловой стиль.

ФОРМАТ ОТВЕТА (строго JSON, без markdown-обрамления):
\x7b
  \"period\": \"дд.мм.гггг — дд.мм.гггг\",
  \"sections\": [
    \x7b
      \"id\": \"regulatory\",
      \"title\": \"Регуляторика и госполитика\",
      \"icon\": \"⚙\",
      \"items\": [
        \x7b
          \"label\": \"Краткий заголовок (до 7 слов)\",
          \"source\": \"Название источника, дд.мм.гггг\",
          \"text\": \"2-3 предложения с фактом и значимостью для КЭА.\"
        \x7d
      ]
    \x7d,
    \x7b
      \"id\": \"tariffs\",
      \"title\": \"Тарифы и рынок\",
      \"icon\": \"₸\",
      \"items\": [...]
    \x7d,
    \x7b
      \"id\": \"renewables\",
      \"title\": \"ВИЭ и новые проекты\",
      \"icon\": \"⚡\",
      \"items\": [...]
    \x7d,
    \x7b
      \"id\": \"infrastructure\",
      \"title\": \"Инфраструктура и надёжность\",
      \"icon\": \"🔌\",
      \"items\": [...]
    \x7d,
    \x7b
      \"id\": \"international\",
      \"title\": \"Международная повестка\",
      \"icon\": \"🌐\",
      \"items\": [...]
    \x7d,
    \x7b
      \"id\": \"events\",
      \"title\": \"Анонсы и мероприятия\",
      \"icon\": \"📅\",
      \"items\": [...]
    \x7d
  ],
  \"requires_action\": [
    \x7b
      \"title\": \"Краткое действие (до 8 слов)\",
      \"text\": \"Конкретное описание что и зачем сделать КЭА.\"
    \x7d
  ]
\x7d

НОВОСТИ ЗА НЕДЕЛЮ:
\x7bnews_block\x7d
"

/-- Scanner state for the `str.format` model: in literal text, inside a field
name (accumulated in reverse), or just behind a lone closing brace. -/
inductive FmtState where
  | text
  | openBr
  | field (nameRev : List Char)
  | closeBr
deriving DecidableEq

/-- Model of CPython's `str.format` scan, specialised to the call
`DIGEST_PROMPT.format(news_block=...)` at digest.py line 322 (the only
`.format` call in the program).  `none` models exactly the inputs on which
the Formatter raises: a lone or unterminated brace (ValueError), a nested
brace in a field name (ValueError), an empty field name (IndexError, since
no positional arguments are supplied), and any field other than
`news_block` — the single supplied keyword — including fields carrying a
conversion or format spec, whose name lookup raises KeyError here. -/
def pyFormatSM (value : List Char) : FmtState → List Char → Option (List Char)
  | .text, [] => some []
  | .text, c :: t =>
    if c = '{' then pyFormatSM value .openBr t
    else if c = '}' then pyFormatSM value .closeBr t
    else (pyFormatSM value .text t).map (fun r => c :: r)
  | .openBr, [] => none
  | .openBr, c :: t =>
    if c = '{' then (pyFormatSM value .text t).map (fun r => '{' :: r)
    else if c = '}' || c = ':' || c = '!' then none
    else pyFormatSM value (.field [c]) t
  | .field _, [] => none
  | .field nameRev, c :: t =>
    if c = '}' then
      if nameRev.reverse = "news_block".data then
        (pyFormatSM value .text t).map (fun r => value ++ r)
      else none
    else if c = '{' || c = ':' || c = '!' then none
    else pyFormatSM value (.field (c :: nameRev)) t
  | .closeBr, [] => none
  | .closeBr, c :: t =>
    if c = '}' then (pyFormatSM value .text t).map (fun r => '}' :: r)
    else none

/-- `tmpl.format(news_block=value)`. -/
def pyFormat (tmpl value : String) : Option String :=
  (pyFormatSM value.data .text tmpl.data).map (fun l => ⟨l⟩)

/-- The placeholder article substituted for an empty collection
(digest.py lines 317-319). -/
def placeholder_article (today : String) : Article :=
  { source := "Система", title := "За текущую неделю существенных новостей не обнаружено",
    summary := "", link := "", date := today }

/-- The empty-list substitution of generate_digest lines 315-319. -/
def articlesForPrompt (today : String) (articles : List Article) : List Article :=
  if articles.isEmpty then [placeholder_article today] else articles

/-- format_news_block (digest.py lines 300-308). -/
def format_news_block (articles : List Article) : String :=
  String.intercalate "\n\n" (articles.enum.map (fun p =>
    toString (p.1 + 1) ++ ". [" ++ p.2.source ++ " | " ++ p.2.date ++ "] " ++ p.2.title
      ++ "\n   " ++ p.2.summary ++ "\n   Ссылка: " ++ p.2.link))

/-- First-occurrence split: Python `l.split(sep, 1)` when `sep` occurs,
returning the parts before and after the first occurrence; `none` when
`sep` does not occur. -/
def splitFirstAt (sep : List Char) : List Char → Option (List Char × List Char)
  | [] => if sep.isEmpty then some ([], []) else none
  | c :: t =>
    if isPrefixOfCL sep (c :: t) then some ([], (c :: t).drop sep.length)
    else (splitFirstAt sep t).map (fun p => (c :: p.1, p.2))

/-- Python `l.rsplit(sep, 1)[0]`: everything before the last occurrence of
`sep`, or the whole list when `sep` does not occur (the rightmost match is
the leftmost match of the reversed pattern in the reversed list). -/
def rsplitOnceBefore (sep l : List Char) : List Char :=
  match splitFirstAt sep.reverse l.reverse with
  | none => l
  | some p => p.2.reverse

/-- Python `s.startswith(p)`. -/
def startsWithS (s p : String) : Bool := isPrefixOfCL p.data s.data

/-- Response post-processing of generate_digest lines 326-331: strip the
response text, and if it starts with a markdown fence, drop the first line
(`raw.split('\n', 1)[1]`, an IndexError — modelled as `none` — when the text
has no newline) and everything from the last fence on
(`raw.rsplit('```', 1)[0]`).  The result is the text handed to
`json.loads`. -/
def postprocess (respText : String) : Option String :=
  if startsWithS (pyStrip respText) "```" then
    match splitFirstAt "\n".data (pyStrip respText).data with
    | none => none
    | some p => some ⟨rsplitOnceBefore "```".data p.2⟩
  else some (pyStrip respText)

/-- generate_digest (digest.py lines 311-335) up to the `json.loads` call,
with the generative-text service as an oracle from prompt to response text:
substitute the placeholder on empty input, format the news block into
DIGEST_PROMPT, send, strip fences.  `none` models an exception before
parsing; `some s` is the text handed to `json.loads`. -/
def generate_digest (today : String) (articles : List Article)
    (respond : String → String) : Option String :=
  let arts := articlesForPrompt today articles
  match pyFormat DIGEST_PROMPT (format_news_block arts) with
  | none => none
  | some prompt => postprocess (respond prompt)

set_option maxRecDepth 40000 in
/-- DIGEST_PROMPT.format raises for every value: the scan reaches the first
literal JSON brace of the template (the line after "ФОРМАТ ОТВЕТА…") and the
field name it opens is not news_block. -/
theorem pyFormat_DIGEST_PROMPT (value : String) : pyFormat DIGEST_PROMPT value = none := by
  have h : pyFormatSM value.data .text DIGEST_PROMPT.data = none := rfl
  simp [pyFormat, h]

set_option maxRecDepth 40000 in
/-- C5: on an empty collection generate_digest substitutes exactly one
synthetic placeholder article before building the request — but the stage
then fails on every input (not only the empty one), because
`DIGEST_PROMPT.format(news_block=...)` raises on the template's literal JSON
braces before any request is sent. -/
theorem C5_placeholder_format_bug :
    (∀ today : String, articlesForPrompt today [] = [placeholder_article today])
    ∧ (∀ (today : String) (articles : List Article) (respond : String → String),
      generate_digest today articles respond = none) := by
  constructor
  · intro today
    rfl
  · intro today articles respond
    show (match pyFormat DIGEST_PROMPT (format_news_block (articlesForPrompt today articles)) with
      | none => none
      | some prompt => postprocess (respond prompt)) = none
    rw [pyFormat_DIGEST_PROMPT]

theorem splitFirstAt_newline_none :
    ∀ l : List Char, splitFirstAt "\n".data l = none ↔ '\n' ∉ l := by
  intro l
  induction l with
  | nil => simp [splitFirstAt]
  | cons c t ih =>
    by_cases hc : c = '\n'
    · subst hc
      have hp : isPrefixOfCL "\n".data ('\n' :: t) = true := rfl
      simp [splitFirstAt, hp]
    · have hp : isPrefixOfCL "\n".data (c :: t) = false := by
        have : ('\n' == c) = false := by
          simp [Ne.symm hc]
        simp [isPrefixOfCL, this]
      simp [splitFirstAt, hp, ih, hc, Ne.symm hc]

/-- C10: the fence-stripping step is partial at the interface: the response
consisting of the bare fence marker makes the stage fail (the model of the
IndexError from `raw.split('\n', 1)[1]`), and in general a stripped response
starting with the fence marker survives post-processing exactly when it
contains at least one newline. -/
theorem C10_fence_stripping_partial :
    postprocess "```" = none
    ∧ (∀ r : String, startsWithS (pyStrip r) "```" = true →
      ((postprocess r).isSome ↔ '\n' ∈ (pyStrip r).data)) := by
  refine ⟨rfl, ?_⟩
  intro r h
  unfold postprocess
  simp only [h, if_true]
  by_cases hm : '\n' ∈ (pyStrip r).data
  · cases ho : splitFirstAt "\n".data (pyStrip r).data with
    | none => exact absurd hm ((splitFirstAt_newline_none _).1 ho)
    | some p => simp [ho, hm]
  · have hn : splitFirstAt "\n".data (pyStrip r).data = none :=
      (splitFirstAt_newline_none _).2 hm
    simp [hn, hm]

/-- C10 witness: the general direction of C10 applied at a concrete fenced
response with a newline. -/
theorem C10_fence_stripping_partial_witness :
    (postprocess "```json\nx").isSome ↔ '\n' ∈ (pyStrip "```json\nx").data :=
  C10_fence_stripping_partial.2 "```json\nx" (by decide)

/-! ## C6: fenced responses parse like bare responses -/

theorem data_append (s t : String) : (s ++ t).data = s.data ++ t.data := rfl

theorem string_eq_of_data {s t : String} (h : s.data = t.data) : s = t :=
  congrArg String.mk h

theorem dropWhile_head_not_space {l : List Char}
    (h : ∀ c, l.head? = some c → isSpacePy c = false) :
    l.dropWhile isSpacePy = l := by
  cases l with
  | nil => rfl
  | cons a t => simp [List.dropWhile_cons, h a rfl]

/-- The backtick character. -/
def btick : Char := Char.ofNat 96

theorem fenced_data (J : String) :
    ("```json\n" ++ J ++ "\n```").data = "```json\n".data ++ J.data ++ "\n```".data := rfl

theorem fenced_reverse (J : String) :
    ("```json\n" ++ J ++ "\n```").data.reverse
      = "```\n".data ++ (J.data.reverse ++ "\nnosj```".data) := by
  rw [fenced_data, List.reverse_append, List.reverse_append]
  rw [show "\n```".data.reverse = "```\n".data from by decide,
      show "```json\n".data.reverse = "\nnosj```".data from by decide]

theorem head_fenced (J : String) :
    (("```json\n" ++ J ++ "\n```").data).head? = some btick := rfl

theorem head_ticks_append (X : List Char) : ("```\n".data ++ X).head? = some btick := rfl

theorem pyStrip_fenced (J : String) :
    pyStrip ("```json\n" ++ J ++ "\n```") = "```json\n" ++ J ++ "\n```" := by
  apply string_eq_of_data
  show stripCL (("```json\n" ++ J ++ "\n```").data) = ("```json\n" ++ J ++ "\n```").data
  unfold stripCL
  have h1 : (("```json\n" ++ J ++ "\n```").data).dropWhile isSpacePy
      = ("```json\n" ++ J ++ "\n```").data := by
    apply dropWhile_head_not_space
    intro c hc
    rw [head_fenced] at hc
    injection hc with h
    rw [← h]
    decide
  have h2 : ("```\n".data ++ (J.data.reverse ++ "\nnosj```".data)).dropWhile isSpacePy
      = "```\n".data ++ (J.data.reverse ++ "\nnosj```".data) := by
    apply dropWhile_head_not_space
    intro c hc
    rw [head_ticks_append] at hc
    injection hc with h
    rw [← h]
    decide
  rw [h1, fenced_reverse, h2, ← fenced_reverse, List.reverse_reverse]

theorem split_fenced (J : String) :
    splitFirstAt "\n".data (("```json\n" ++ J ++ "\n```").data)
      = some ("```json".data, J.data ++ "\n```".data) := rfl

theorem split_ticks (X : List Char) :
    splitFirstAt "```".data ("```\n".data ++ X) = some ([], "\n".data ++ X) := rfl

theorem rsplit_fenced (J : String) :
    rsplitOnceBefore "```".data (J.data ++ "\n```".data) = J.data ++ "\n".data := by
  unfold rsplitOnceBefore
  rw [List.reverse_append,
      show "\n```".data.reverse = "```\n".data from by decide,
      show "```".data.reverse = "```".data from by decide,
      split_ticks]
  simp

theorem dropWhile_append_single (p : Char → Bool) (c : Char) (hc : p c = true) :
    ∀ l : List Char, (l ++ [c]).dropWhile p
      = if (l.dropWhile p).isEmpty then [] else l.dropWhile p ++ [c] := by
  intro l
  induction l with
  | nil => simp [List.dropWhile_cons, hc]
  | cons a t ih =>
    by_cases hp : p a = true
    · simp [List.cons_append, List.dropWhile_cons, hp, ih]
    · have hp' : p a = false := by
        simpa using hp
      simp [List.cons_append, List.dropWhile_cons, hp']

theorem stripCL_append_newline (l : List Char) :
    stripCL (l ++ "\n".data) = stripCL l := by
  unfold stripCL
  have e : l ++ "\n".data = l ++ ['\n'] := rfl
  rw [e, dropWhile_append_single isSpacePy '\n' (by decide) l]
  by_cases h : (l.dropWhile isSpacePy).isEmpty = true
  · simp [h, List.isEmpty_iff.1 h]
  · have h' : (l.dropWhile isSpacePy).isEmpty = false := by
      simpa using h
    simp only [h', Bool.false_eq_true, if_false]
    rw [List.reverse_append]
    simp [List.dropWhile_cons, show isSpacePy '\n' = true from by decide]

theorem pyStrip_append_newline (J : String) : pyStrip (J ++ "\n") = pyStrip J := by
  apply string_eq_of_data
  show stripCL ((J ++ "\n").data) = stripCL J.data
  rw [data_append]
  exact stripCL_append_newline J.data

/-- C6: a service response wrapped in a markdown fence parses identically to
the bare response: the first and last fence lines are stripped, leaving the
inner JSON text plus a trailing newline, and after the outer-whitespace
trimming that `json.loads` performs on its input the fenced and the bare
response hand the parser the same text. -/
theorem C6_fenced_response (J : String) :
    postprocess ("```json\n" ++ J ++ "\n```") = some (J ++ "\n")
    ∧ (startsWithS (pyStrip J) "```" = false →
      (postprocess ("```json\n" ++ J ++ "\n```")).map pyStrip = postprocess J) := by
  have hmain : postprocess ("```json\n" ++ J ++ "\n```") = some (J ++ "\n") := by
    unfold postprocess
    rw [pyStrip_fenced]
    rw [if_pos (show startsWithS ("```json\n" ++ J ++ "\n```") "```" = true from rfl)]
    rw [split_fenced]
    show some (⟨rsplitOnceBefore "```".data (J.data ++ "\n```".data)⟩ : String) = some (J ++ "\n")
    exact congrArg (fun l => some (⟨l⟩ : String)) (rsplit_fenced J)
  refine ⟨hmain, ?_⟩
  intro hb
  rw [hmain]
  unfold postprocess
  simp only [hb, Bool.false_eq_true, if_false, Option.map_some']
  exact congrArg some (pyStrip_append_newline J)

/-- C6 witness: the fence equivalence applied to a concrete JSON object
text. -/
theorem C6_fenced_response_witness :
    postprocess ("```json\n" ++ "\x7b\"period\": \"x\"\x7d" ++ "\n```")
      = some ("\x7b\"period\": \"x\"\x7d" ++ "\n")
    ∧ (postprocess ("```json\n" ++ "\x7b\"period\": \"x\"\x7d" ++ "\n```")).map pyStrip
      = postprocess "\x7b\"period\": \"x\"\x7d" :=
  ⟨(C6_fenced_response "\x7b\"period\": \"x\"\x7d").1,
   (C6_fenced_response "\x7b\"period\": \"x\"\x7d").2 (by decide)⟩

/-! ## PDF rendering (build_pdf) -/

/-- A parsed digest item: the dict keys looked up by news_item_table's
callers, all read with `.get` and hence optional. -/
structure DItem where
  label : Option String := none
  source : Option String := none
  text : Option String := none
deriving DecidableEq

/-- A parsed digest section: `title` is read with `sec['title']` (mandatory
lookup), the rest with `.get`. -/
structure DSection where
  id : Option String := none
  title : Option String := none
  icon : Option String := none
  items : Option (List DItem) := none
deriving DecidableEq

/-- A parsed action item: both fields are read with mandatory indexing in
alert_table. -/
structure DAction where
  title : Option String := none
  text : Option String := none
deriving DecidableEq

/-- The parsed digest document (the dict returned by json.loads). -/
structure Digest where
  period : Option String := none
  sections : Option (List DSection) := none
  requires_action : Option (List DAction) := none
deriving DecidableEq

/-- One flowable of the PDF story, abstracting the reportlab objects built
in build_pdf: the title block, spacers (argument in mm), a section header
bar, a two-column news item row, the KeepTogether wrapper, the alert banner,
the alert table rows (title and body per action), and the closing
disclaimer. -/
inductive Block where
  | titleBlock (period : String)
  | spacer (n : Nat)
  | sectionHeader (title icon : String)
  | newsItem (label source text : String)
  | keepTogether (blocks : List Block)
  | alertHeader
  | alertTable (rows : List (String × String))
  | footerNote

/-- The per-section blocks of build_pdf lines 568-586: a section with an
empty (or absent) items list is skipped; otherwise the header
(`sec['title']`, a mandatory lookup modelled as `.error` on a missing key,
with the icon defaulting to the bullet glyph) is followed by one row per
item (label/source/text defaulting to empty strings), the header is kept
together with the first item (`block[:3]`), and the remaining blocks flow
independently. -/
def section_blocks (sec : DSection) : Except String (List Block) :=
  if (sec.items.getD []).isEmpty then .ok []
  else
    match sec.title with
    | none => .error "KeyError: title"
    | some title =>
      let blk : List Block :=
        [Block.sectionHeader title (sec.icon.getD "•"), Block.spacer 2]
          ++ (sec.items.getD []).map (fun it =>
              Block.newsItem (it.label.getD "") (it.source.getD "") (it.text.getD ""))
          ++ [Block.spacer 5]
      .ok (Block.keepTogether (blk.take 3) :: blk.drop 3)

/-- The section loop of build_pdf, accumulating per-section blocks in
document order; the first raised KeyError aborts the build. -/
def sections_blocks : List DSection → Except String (List Block)
  | [] => .ok []
  | s :: rest =>
    match section_blocks s with
    | .error e => .error e
    | .ok b =>
      match sections_blocks rest with
      | .error e => .error e
      | .ok r => .ok (b ++ r)

/-- The rows of alert_table (digest.py lines 476-487): `action['title']` and
`action['text']` are mandatory lookups. -/
def alert_rows : List DAction → Except String (List (String × String))
  | [] => .ok []
  | a :: rest =>
    match a.title with
    | none => .error "KeyError: title"
    | some t =>
      match a.text with
      | none => .error "KeyError: text"
      | some x =>
        match alert_rows rest with
        | .error e => .error e
        | .ok r => .ok ((t, x) :: r)

/-- build_pdf (digest.py lines 554-600) abstracted to the story of blocks it
lays out: the title block (period defaulting via `.get`), the non-empty
sections, the alert banner and table when any actions exist, and the closing
disclaimer.  `.error` models an uncaught KeyError during the build. -/
def build_story (d : Digest) : Except String (List Block) :=
  match sections_blocks (d.sections.getD []) with
  | .error e => .error e
  | .ok secBlocks =>
    let story := [Block.titleBlock (d.period.getD "текущая неделя"), Block.spacer 6] ++ secBlocks
    match
      (if (d.requires_action.getD []).isEmpty then Except.ok story
       else
         match alert_rows (d.requires_action.getD []) with
         | .error e => .error e
         | .ok rows =>
           .ok (story ++ [Block.alertHeader, Block.spacer 2, Block.alertTable rows, Block.spacer 5])) with
    | .error e => .error e
    | .ok st2 => .ok (st2 ++ [Block.footerNote])

/-- A digest whose only action item lacks a title. -/
def badActionDigest : Digest :=
  { period := some "06.10.2025 — 12.10.2025",
    sections := some [],
    requires_action := some [{ title := none, text := some "Подготовить письмо в МЭМР" }] }

/-- C7 counterexample: a missing optional-looking field of an action item is
not tolerated — `action['title']` raises and the rendering stage fails. -/
theorem C7_counterexample : build_story badActionDigest = .error "KeyError: title" := rfl

theorem sections_blocks_ok (ss : List DSection)
    (hs : ∀ s ∈ ss, (s.items.getD []).isEmpty = false → s.title.isSome) :
    ∃ b, sections_blocks ss = .ok b := by
  induction ss with
  | nil => exact ⟨[], rfl⟩
  | cons s rest ih =>
    obtain ⟨r, hr⟩ := ih (fun x hx he => hs x (by simp [hx]) he)
    by_cases he : (s.items.getD []).isEmpty = true
    · refine ⟨r, ?_⟩
      simp only [sections_blocks, section_blocks, he, if_true, hr, List.nil_append]
    · have he' : (s.items.getD []).isEmpty = false := by
        simpa using he
      obtain ⟨t, ht⟩ := Option.isSome_iff_exists.1 (hs s (by simp) he')
      cases hsb : section_blocks s with
      | error e =>
        exfalso
        simp [section_blocks, he', ht] at hsb
      | ok b =>
        exact ⟨b ++ r, by simp only [sections_blocks, hsb, hr]⟩

theorem alert_rows_ok (acts : List DAction)
    (ha : ∀ a ∈ acts, a.title.isSome ∧ a.text.isSome) :
    ∃ r, alert_rows acts = .ok r := by
  induction acts with
  | nil => exact ⟨[], rfl⟩
  | cons a rest ih =>
    obtain ⟨ht, hx⟩ := ha a (by simp)
    obtain ⟨t, ht'⟩ := Option.isSome_iff_exists.1 ht
    obtain ⟨x, hx'⟩ := Option.isSome_iff_exists.1 hx
    obtain ⟨r, hr⟩ := ih (fun b hb => ha b (by simp [hb]))
    exact ⟨(t, x) :: r, by simp [alert_rows, ht', hx', hr]⟩

/-- C7 amended: the fields read via `.get` — period, section icon, item
label, item source, item text — are tolerated with empty-string or bullet
defaults, but a section title (for a section with items) and the title and
text of action items are mandatory: whenever those are present the build
never fails, whatever other fields are missing. -/
theorem C7_amended_tolerance (d : Digest)
    (hs : ∀ s ∈ d.sections.getD [], (s.items.getD []).isEmpty = false → s.title.isSome)
    (ha : ∀ a ∈ d.requires_action.getD [], a.title.isSome ∧ a.text.isSome) :
    ∃ blocks, build_story d = .ok blocks := by
  obtain ⟨b, hb⟩ := sections_blocks_ok (d.sections.getD []) hs
  by_cases he : (d.requires_action.getD []).isEmpty = true
  · refine ⟨([Block.titleBlock (d.period.getD "текущая неделя"), Block.spacer 6] ++ b)
      ++ [Block.footerNote], ?_⟩
    simp only [build_story, hb, he, if_true]
  · have he' : (d.requires_action.getD []).isEmpty = false := by
      simpa using he
    obtain ⟨r, hr⟩ := alert_rows_ok (d.requires_action.getD []) ha
    refine ⟨([Block.titleBlock (d.period.getD "текущая неделя"), Block.spacer 6] ++ b
      ++ [Block.alertHeader, Block.spacer 2, Block.alertTable r, Block.spacer 5])
      ++ [Block.footerNote], ?_⟩
    simp only [build_story, hb, he', Bool.false_eq_true, if_false, hr]

/-- A digest exercising every tolerated missing field: no period, a section
without id/icon whose single item has no label/source/text, a second
section with an empty items list and no title, and a complete action
item. -/
def tolerantDigest : Digest :=
  { period := none,
    sections := some [
      { id := none, title := some "Тарифы и рынок", icon := none,
        items := some [{ label := none, source := none, text := none }] },
      { id := none, title := none, icon := none, items := some [] }],
    requires_action := some [{ title := some "Направить запрос",
                               text := some "Уточнить параметры тарифа." }] }

/-- C7 witness: the amended tolerance applied to the digest with every
optional field missing. -/
theorem C7_amended_tolerance_witness :
    ∃ blocks, build_story tolerantDigest = .ok blocks :=
  C7_amended_tolerance tolerantDigest (by decide) (by decide)

theorem section_blocks_empty (s : DSection) (h : s.items.getD [] = []) :
    section_blocks s = .ok [] := by
  simp [section_blocks, h]

theorem sections_blocks_drop_empty (s : DSection) (h : s.items.getD [] = [])
    (pre post : List DSection) :
    sections_blocks (pre ++ s :: post) = sections_blocks (pre ++ post) := by
  induction pre with
  | nil =>
    simp only [List.nil_append, sections_blocks, section_blocks_empty s h]
    cases hp : sections_blocks post with
    | error e => simp [hp]
    | ok r => simp [hp]
  | cons p ps ih =>
    simp only [List.cons_append, sections_blocks, List.append_eq, ih]

/-- C9: a section whose items list is empty or absent contributes no blocks
to the rendered story: inserting it anywhere among the sections leaves the
built story unchanged. -/
theorem C9_empty_section_suppressed (d : Digest) (s : DSection)
    (h : s.items.getD [] = []) (pre post : List DSection) :
    build_story { d with sections := some (pre ++ s :: post) }
      = build_story { d with sections := some (pre ++ post) } := by
  simp only [build_story, Option.getD_some]
  rw [sections_blocks_drop_empty s h pre post]

/-- Section with items used in the C9 witness. -/
def secFull : DSection :=
  { id := some "tariffs", title := some "Тарифы и рынок", icon := some "₸",
    items := some [{ label := some "Рост тарифа", source := some "Kapital.kz, 07.10.2025",
                     text := some "АРЕМ утвердил новый тариф." }] }

/-- Empty section used in the C9 witness. -/
def secEmpty : DSection := { id := some "events", title := some "Анонсы", items := some [] }

/-- Base digest used in the C9 witness. -/
def digSample : Digest :=
  { period := some "06.10.2025 — 12.10.2025", sections := some [], requires_action := none }

/-- C9 witness: suppression of a concrete empty section. -/
theorem C9_empty_section_suppressed_witness :
    build_story { digSample with sections := some ([] ++ secEmpty :: [secFull]) }
      = build_story { digSample with sections := some ([] ++ [secFull]) } :=
  C9_empty_section_suppressed digSample secEmpty rfl [] [secFull]

end KeaDigest
